import Mathlib

/-!
Verification development for the SSRN batch PDF downloader
(`download_ssrn_papers.py`).

The script is sequential and I/O-bound, so the embedding passes the two
effectful resources explicitly:

* the network is an environment (`ItemEnv`) that fixes, per processed item,
  the outcome of every direct GET attempt, of the landing-page GET (whose
  body is represented post-parse, as the anchors the HTML parser would
  yield), and of the GET against the re-discovered anchor URL;
* the local filesystem is a map from path to file contents (`FS`), and a
  run additionally produces a trace of observable events (GETs, sleeps,
  fallback invocations, file writes and deletions).

Transport exceptions are modelled as leaving the filesystem unchanged.
`str(e)` renderings of library exceptions are abstract strings supplied by
the environment (for HTTP-status errors, a fixed rendering of the status).
-/

namespace SSRN

/-- Configuration constants of the script. -/
def OUTPUT_DIR : String := "ssrn_papers"

def FAILED_LOG_FILE : String := "failed_downloads.json"

def DELAY_BETWEEN_REQUESTS : Nat := 1

def MAX_RETRIES : Nat := 3

/-! ## Small string utilities (regex-free counterparts of the Python idioms) -/

/-- Does `pat` occur at the very start of `l`? (`matchesPat pat l`). -/
def matchesPat : List Char → List Char → Bool
  | [], _ => true
  | _ :: _, [] => false
  | p :: ps, c :: cs => p == c && matchesPat ps cs

/-- Python `pat in hay` (substring containment). -/
def hasSub : List Char → List Char → Bool
  | [], pat => pat.isEmpty
  | c :: rest, pat => matchesPat pat (c :: rest) || hasSub rest pat

/-- The remainder of `hay` after the first occurrence of `pat`, if any. -/
def afterFirstSub : List Char → List Char → Option (List Char)
  | [], pat => if pat.isEmpty then some [] else none
  | c :: rest, pat =>
    if matchesPat pat (c :: rest) then some ((c :: rest).drop pat.length)
    else afterFirstSub rest pat

/-- Python `str.lower()` on a character list. -/
def lowerList (l : List Char) : List Char := l.map Char.toLower

/-- Python `s.endswith(pat)`. -/
def endsWithPat (s pat : List Char) : Bool := matchesPat pat.reverse s.reverse

/-- Python `s.startswith(pat)`. -/
def startsWithStr (s pat : String) : Bool := matchesPat pat.data s.data

/-- Python rendering of an optional string in an f-string (`None` prints as
the word itself). -/
def pyStr : Option String → String
  | some s => s
  | none => "None"

/-! ## `extract_abstract_id` -/

/-- The literal part of the regex `abstract_id=(\d+)`. -/
def idPat : List Char := ("abstract_id=").data

/-- Is there at least one digit right after the literal part? (`(\d+)` needs
one digit for the regex to match at this position). -/
def digitFollows (l : List Char) : Bool :=
  match l.drop idPat.length with
  | [] => false
  | c :: _ => c.isDigit

/-- Does the regex `abstract_id=(\d+)` match at the head of `l`? -/
def idMatchHere (l : List Char) : Bool := matchesPat idPat l && digitFollows l

/-- The maximal digit run at the head of `l` (the greedy `(\d+)` group). -/
def takeDigits : List Char → List Char
  | [] => []
  | c :: cs => if c.isDigit then c :: takeDigits cs else []

/-- Leftmost-match scan of `re.search(r'abstract_id=(\d+)', url)`. -/
def extractIdAux : List Char → Option (List Char)
  | [] => none
  | c :: cs =>
    if idMatchHere (c :: cs) then some (takeDigits ((c :: cs).drop idPat.length))
    else extractIdAux cs

/-- `extract_abstract_id`: first `abstract_id=<digits>` occurrence, or `None`. -/
def extract_abstract_id (url : String) : Option String :=
  (extractIdAux url.data).map fun l => String.mk l

/-! ## `get_download_url` -/

/-- `get_download_url`: deterministic direct-download URL for an identifier. -/
def get_download_url (abstract_id : String) : String :=
  ("https://papers.ssrn.com/sol3") ++ ("/Delivery.cfm/") ++ abstract_id ++
    (".pdf?abstractid=") ++ abstract_id ++ ("&mirid=1")

/-! ## Filesystem, network environment, events -/

/-- A JSON value, for the failure-log file. -/
inductive Json where
  | null : Json
  | str (s : String) : Json
  | arr (xs : List Json) : Json
  | obj (fields : List (String × Json)) : Json

/-- Contents of a file on disk: raw bytes, or the JSON document the failure
log serializes to. -/
inductive FileData where
  | bytes (content : List Nat) : FileData
  | json (j : Json) : FileData

/-- The local filesystem: a map from path to file contents. -/
def FS : Type := String → Option FileData

/-- Write (create or overwrite) a file. -/
def fsInsert (fs : FS) (p : String) (d : FileData) : FS :=
  fun q => if q = p then some d else fs q

/-- `Path.unlink`. -/
def fsErase (fs : FS) (p : String) : FS :=
  fun q => if q = p then none else fs q

/-- An empty disk. -/
def fsEmpty : FS := fun _ => none

/-- Outcome of one `requests.get`: a transport exception carrying its
`str(e)` rendering, or a response with HTTP status, `Content-Type` header
and body bytes. -/
inductive GetOutcome where
  | exn (msg : String) : GetOutcome
  | resp (status : Nat) (contentType : String) (body : List Nat) : GetOutcome
deriving DecidableEq

/-- An anchor tag of the landing page as the HTML parser reports it:
its `data-abstract-id` attribute, its string content, its `class`
attribute (as one string) and its `href`. -/
structure Anchor where
  dataAbstractId : Option String
  text : Option String
  cls : Option String
  href : Option String
deriving DecidableEq

/-- Outcome of the landing-page GET: exception, or a response whose parsed
body is the given anchor list. -/
inductive PageOutcome where
  | exn (msg : String) : PageOutcome
  | resp (status : Nat) (anchors : List Anchor) : PageOutcome
deriving DecidableEq

/-- The network environment for one processed item. -/
structure ItemEnv where
  direct : Nat → GetOutcome
  page : PageOutcome
  anchorGet : GetOutcome
  timestamp : String

/-- Observable events of a run. -/
inductive Event where
  | getDirect (url : String) : Event
  | getPage (url : String) : Event
  | getAnchor (url : String) : Event
  | sleep (seconds : Nat) : Event
  | fallbackCall : Event
  | write (path : String) (size : Nat) : Event
  | unlink (path : String) : Event
deriving DecidableEq

/-- Abstract `str(requests.HTTPError)` rendering for a failing status. -/
def httpErrorMsg (status : Nat) : String :=
  toString status ++ (" Error for url")

/-- `response.raise_for_status()` folded into the GET outcome: statuses in
400..599 become a raised `RequestException`. -/
def applyRaiseForStatus : GetOutcome → GetOutcome
  | GetOutcome.exn m => GetOutcome.exn m
  | GetOutcome.resp status ct body =>
    if 400 ≤ status then GetOutcome.exn (httpErrorMsg status)
    else GetOutcome.resp status ct body

/-- The `attempt`-th direct GET, after `raise_for_status`. -/
def effectiveDirect (env : ItemEnv) (attempt : Nat) : GetOutcome :=
  applyRaiseForStatus (env.direct attempt)

/-- The landing-page GET, after `raise_for_status`. -/
def effectivePage (env : ItemEnv) : PageOutcome :=
  match env.page with
  | PageOutcome.exn m => PageOutcome.exn m
  | PageOutcome.resp status anchors =>
    if 400 ≤ status then PageOutcome.exn (httpErrorMsg status)
    else PageOutcome.resp status anchors

/-- The anchor-URL GET, after `raise_for_status`. -/
def effectiveAnchor (env : ItemEnv) : GetOutcome :=
  applyRaiseForStatus env.anchorGet

/-! ## `download_from_page` (Page-Scrape Fallback) -/

/-- The landing-page URL of an identifier. -/
def page_url_for (abstract_id : String) : String :=
  ("https://papers.ssrn.com/sol3/papers.cfm?abstract_id=") ++ abstract_id

/-- Lines 135-140: resolve a discovered href to an absolute URL. -/
def resolveDownloadLink (download_link : String) : String :=
  if startsWithStr download_link ("/") then
    ("https://papers.ssrn.com") ++ download_link
  else if startsWithStr download_link ("Delivery.cfm") then
    ("https://papers.ssrn.com/sol3/") ++ download_link
  else download_link

/-- `link and link.get('href')`: the anchor's href, if present and nonempty. -/
def hrefOpt : Option Anchor → Option String
  | some a =>
    match a.href with
    | some h => if h = "" then none else some h
    | none => none
  | none => none

/-- Method 1: `soup.find('a', attrs with data-abstract-id = abstract_id)`. -/
def method1 (abstract_id : String) (anchors : List Anchor) : Option Anchor :=
  anchors.find? fun a => a.dataAbstractId == some abstract_id

/-- Method 2: `soup.find('a', string matching /Download This Paper/i)`. -/
def method2 (anchors : List Anchor) : Option Anchor :=
  anchors.find? fun a =>
    match a.text with
    | some t => hasSub (lowerList t.data) (lowerList ("Download This Paper").data)
    | none => false

/-- The regex `button-link.*primary` (search semantics). -/
def matchesBLP (s : String) : Bool :=
  match afterFirstSub s.data (("button-link").data) with
  | some rest => hasSub rest (("primary").data)
  | none => false

/-- Method 3: `soup.find('a', class matching /button-link.*primary/)`. -/
def method3 (anchors : List Anchor) : Option Anchor :=
  anchors.find? fun a =>
    match a.cls with
    | some c => matchesBLP c
    | none => false

/-- The three ordered heuristics of lines 116-131, first hit wins. -/
def findDownloadLink (abstract_id : String) (anchors : List Anchor) : Option String :=
  match hrefOpt (method1 abstract_id anchors) with
  | some h => some h
  | none =>
    match hrefOpt (method2 anchors) with
    | some h => some h
    | none => hrefOpt (method3 anchors)

/-- Result of `download_from_page`: the returned pair, plus the resulting
filesystem and event trace. -/
structure FetchOut where
  success : Bool
  error : Option String
  fs : FS
  trace : List Event

/-- `download_from_page`: fetch the landing page, locate a download anchor
by the three heuristics, resolve its href, re-fetch, and apply the
zero-byte check. -/
def download_from_page (env : ItemEnv) (abstract_id output_path : String)
    (fs : FS) : FetchOut :=
  let page_url := page_url_for abstract_id
  match effectivePage env with
  | PageOutcome.exn msg =>
    ⟨false, some (("Page request failed: ") ++ msg), fs,
      [Event.fallbackCall, Event.getPage page_url]⟩
  | PageOutcome.resp _ anchors =>
    match findDownloadLink abstract_id anchors with
    | none =>
      ⟨false, some ("Unable to find download link in page"), fs,
        [Event.fallbackCall, Event.getPage page_url]⟩
    | some download_link =>
      let download_url := resolveDownloadLink download_link
      match effectiveAnchor env with
      | GetOutcome.exn msg =>
        ⟨false, some (("Page request failed: ") ++ msg), fs,
          [Event.fallbackCall, Event.getPage page_url, Event.getAnchor download_url]⟩
      | GetOutcome.resp _ _ body =>
        let fs' := fsInsert fs output_path (FileData.bytes body)
        if 0 < body.length then
          ⟨true, none, fs',
            [Event.fallbackCall, Event.getPage page_url,
              Event.getAnchor download_url, Event.write output_path body.length]⟩
        else
          ⟨false, some ("File downloaded from page has size 0"), fs',
            [Event.fallbackCall, Event.getPage page_url,
              Event.getAnchor download_url, Event.write output_path 0]⟩

/-! ## `download_pdf` (Retry Loop) -/

/-- Which `return` statement of `download_pdf` produced the result. -/
inductive Site where
  | directSuccess : Site
  | zeroByte : Site
  | ctypeFallback : Site
  | finalFallback : Site
  | finalCombined : Site
  | postLoop : Site
deriving DecidableEq

/-- Result of `download_pdf`: the returned pair, tagged with its return
site, plus the resulting filesystem and event trace. -/
structure PdfOut where
  success : Bool
  error : Option String
  site : Site
  fs : FS
  trace : List Event

/-- The `for attempt in range(MAX_RETRIES)` loop of `download_pdf`;
`fuel` is the number of remaining iterations, `attempt` the current index.
The `fuel = 0` case is the post-loop `return` of line 98. -/
def downloadPdfLoop (env : ItemEnv) (url output_path abstract_id : String) :
    Nat → Nat → Option String → FS → PdfOut
  | 0, _, last_error, fs =>
    ⟨false, some (("All retry attempts failed: ") ++ pyStr last_error),
      Site.postLoop, fs, []⟩
  | fuel + 1, attempt, _, fs =>
    match effectiveDirect env attempt with
    | GetOutcome.exn msg =>
      if 0 < fuel then
        let out := downloadPdfLoop env url output_path abstract_id fuel
          (attempt + 1) (some msg) fs
        { out with trace := Event.getDirect url :: Event.sleep 2 :: out.trace }
      else
        let fb := download_from_page env abstract_id output_path fs
        if fb.success then
          ⟨fb.success, fb.error, Site.finalFallback, fb.fs,
            Event.getDirect url :: fb.trace⟩
        else
          ⟨false,
            some (("Direct download failed: ") ++ msg ++
              ("; Page parsing also failed: ") ++ pyStr fb.error),
            Site.finalCombined, fb.fs, Event.getDirect url :: fb.trace⟩
    | GetOutcome.resp _ contentType body =>
      if !hasSub (lowerList contentType.data) (("pdf").data) &&
          !endsWithPat url.data ((".pdf").data) then
        let fb := download_from_page env abstract_id output_path fs
        ⟨fb.success, fb.error, Site.ctypeFallback, fb.fs,
          Event.getDirect url :: fb.trace⟩
      else
        let fs' := fsInsert fs output_path (FileData.bytes body)
        if 0 < body.length then
          ⟨true, none, Site.directSuccess, fs',
            [Event.getDirect url, Event.write output_path body.length]⟩
        else
          ⟨false, some ("File size is 0"), Site.zeroByte, fs',
            [Event.getDirect url, Event.write output_path 0]⟩

/-- `download_pdf`: the retry loop started with `MAX_RETRIES` attempts. -/
def download_pdf (env : ItemEnv) (url output_path abstract_id : String)
    (fs : FS) : PdfOut :=
  downloadPdfLoop env url output_path abstract_id MAX_RETRIES 0 none fs

/-! ## `main` (Batch Orchestrator) -/

/-- A recorded failure: `{url, abstract_id, error, timestamp}`. -/
structure FailureRecord where
  url : String
  abstract_id : Option String
  error : String
  timestamp : String
deriving DecidableEq

/-- JSON value for an optional identifier (`null` when absent). -/
def jsonOfOpt : Option String → Json
  | some s => Json.str s
  | none => Json.null

/-- One failure record as the JSON object `json.dump` writes. -/
def recordToJson (r : FailureRecord) : Json :=
  Json.obj [(("url"), Json.str r.url),
            (("abstract_id"), jsonOfOpt r.abstract_id),
            (("error"), Json.str r.error),
            (("timestamp"), Json.str r.timestamp)]

/-- The failure-log document: a JSON array of the run's failure records. -/
def logContent (records : List FailureRecord) : Json :=
  Json.arr (records.map recordToJson)

/-- Python `error_msg or "Unknown error"` (`None` and `""` are falsy). -/
def orUnknown : Option String → String
  | some s => if s = "" then "Unknown error" else s
  | none => "Unknown error"

/-- The destination path `OUTPUT_DIR/<abstract_id>.pdf`. -/
def outputPathFor (abstract_id : String) : String :=
  OUTPUT_DIR ++ ("/") ++ abstract_id ++ (".pdf")

/-- Orchestrator state: the three counters, the in-memory failure list,
the filesystem and the event trace. -/
structure RunState where
  success_count : Nat
  fail_count : Nat
  skip_count : Nat
  failed_downloads : List FailureRecord
  fs : FS
  trace : List Event

/-- One iteration of the orchestrator loop (lines 220-260), without the
inter-item sleep. -/
def mainStep (env : ItemEnv) (url : String) (st : RunState) : RunState :=
  match extract_abstract_id url with
  | none =>
    { st with
      fail_count := st.fail_count + 1,
      failed_downloads := st.failed_downloads ++
        [⟨url, none, "Unable to extract abstract_id from URL", env.timestamp⟩] }
  | some abstract_id =>
    let output_path := outputPathFor abstract_id
    if (st.fs output_path).isSome then
      { st with skip_count := st.skip_count + 1 }
    else
      let download_url := get_download_url abstract_id
      let out := download_pdf env download_url output_path abstract_id st.fs
      if out.success then
        { st with
          success_count := st.success_count + 1,
          fs := out.fs,
          trace := st.trace ++ out.trace }
      else
        let deleted := (out.fs output_path).isSome
        { st with
          fail_count := st.fail_count + 1,
          fs := if deleted then fsErase out.fs output_path else out.fs,
          failed_downloads := st.failed_downloads ++
            [⟨url, some abstract_id, orUnknown out.error, env.timestamp⟩],
          trace := st.trace ++ out.trace ++
            (if deleted then [Event.unlink output_path] else []) }

/-- The orchestrator loop over the URL list; `i` is the 1-based index of
`enumerate(urls, 1)`, `total` the total URL count (for the inter-item
sleep condition `i < len(urls)`). -/
def runLoop (env : Nat → ItemEnv) (total : Nat) :
    Nat → List String → RunState → RunState
  | _, [], st => st
  | i, url :: rest, st =>
    let st1 := mainStep (env i) url st
    let st2 :=
      if i < total then
        { st1 with trace := st1.trace ++ [Event.sleep DELAY_BETWEEN_REQUESTS] }
      else st1
    runLoop env total (i + 1) rest st2

/-- Fresh orchestrator state over an initial disk. -/
def runStateInit (fs0 : FS) : RunState := ⟨0, 0, 0, [], fs0, []⟩

/-- `main`, from the per-item loop onwards: process every URL, then write
the failure log iff the failure list is nonempty. -/
def main (env : Nat → ItemEnv) (urls : List String) (fs0 : FS) : RunState :=
  let st := runLoop env urls.length 1 urls (runStateInit fs0)
  if st.failed_downloads.isEmpty then st
  else
    { st with
      fs := fsInsert st.fs FAILED_LOG_FILE
        (FileData.json (logContent st.failed_downloads)) }

/-! ## Trace counting helpers -/

/-- Is an event an invocation of the Page-Scrape Fallback? -/
def isFallbackEv : Event → Bool
  | Event.fallbackCall => true
  | _ => false

/-- Is an event a direct GET? -/
def isDirectEv : Event → Bool
  | Event.getDirect _ => true
  | _ => false

/-- Is an event a network call of any kind? -/
def isNetEv : Event → Bool
  | Event.getDirect _ => true
  | Event.getPage _ => true
  | Event.getAnchor _ => true
  | _ => false

/-- Number of fallback invocations in a trace. -/
def fallbackCount (tr : List Event) : Nat := tr.countP isFallbackEv

/-- Number of direct GET attempts in a trace. -/
def directCount (tr : List Event) : Nat := tr.countP isDirectEv

/-! ## Concrete sample environments for witnesses -/

/-- Environment where every network request raises a transport exception. -/
def envAllExn : ItemEnv :=
  ⟨fun _ => GetOutcome.exn ("connection reset"),
   PageOutcome.exn ("connection refused"),
   GetOutcome.exn ("connection refused"), "2026-10-12 00:00:00"⟩

/-- Environment where the direct GET returns an empty PDF body and the
fallback also delivers an empty body. -/
def envZero : ItemEnv :=
  ⟨fun _ => GetOutcome.resp 200 ("application/pdf") [],
   PageOutcome.resp 200
     [⟨some ("42"), some ("Download This Paper"),
       some ("button-link primary"), some ("Delivery.cfm/42.pdf?abstractid=42&mirid=1")⟩],
   GetOutcome.resp 200 ("") [], "2026-10-12 00:00:00"⟩

/-- Environment where the direct GET succeeds with a one-byte PDF. -/
def envOk : ItemEnv :=
  ⟨fun _ => GetOutcome.resp 200 ("application/pdf") [37],
   PageOutcome.exn ("unused"), GetOutcome.exn ("unused"), "2026-10-12 00:00:00"⟩

/-- A disk holding only a stale failure log from some earlier run. -/
def fsStale : FS :=
  fun q => if q = FAILED_LOG_FILE then some (FileData.json (Json.str ("stale"))) else none

/-! ## Helper lemmas -/

/-- The destination path of a PDF never collides with the failure-log path. -/
theorem outputPath_ne_log (abstract_id : String) :
    outputPathFor abstract_id ≠ FAILED_LOG_FILE := by
  intro h
  have h1 : (outputPathFor abstract_id).data.head? = some 's' := by
    show ((OUTPUT_DIR ++ ("/") ++ abstract_id ++ (".pdf")).data).head? = some 's'
    rw [String.data_append, String.data_append, String.data_append]
    rw [show OUTPUT_DIR.data = 's' :: (("srn_papers").data) from rfl]
    simp
  rw [h] at h1
  rw [show FAILED_LOG_FILE.data.head? = some 'f' from rfl] at h1
  exact absurd h1 (by decide)

/-- Every run of the Page-Scrape Fallback records exactly one fallback
invocation in its trace. -/
theorem dfp_fallbackCount (env : ItemEnv) (abstract_id output_path : String) (fs : FS) :
    fallbackCount (download_from_page env abstract_id output_path fs).trace = 1 := by
  simp only [download_from_page]
  cases hp : effectivePage env with
  | exn msg => simp [hp, fallbackCount, isFallbackEv]
  | resp status anchors =>
    cases hl : findDownloadLink abstract_id anchors with
    | none => simp [hp, hl, fallbackCount, isFallbackEv]
    | some dl =>
      cases ha : effectiveAnchor env with
      | exn msg => simp [hp, hl, ha, fallbackCount, isFallbackEv]
      | resp s2 ct body =>
        by_cases hb : 0 < body.length <;>
          simp [hp, hl, ha, hb, fallbackCount, isFallbackEv]

/-- The fallback trace contains no direct GET events. -/
theorem dfp_directCount (env : ItemEnv) (abstract_id output_path : String) (fs : FS) :
    directCount (download_from_page env abstract_id output_path fs).trace = 0 := by
  simp only [download_from_page]
  cases hp : effectivePage env with
  | exn msg => simp [hp, directCount, isDirectEv]
  | resp status anchors =>
    cases hl : findDownloadLink abstract_id anchors with
    | none => simp [hp, hl, directCount, isDirectEv]
    | some dl =>
      cases ha : effectiveAnchor env with
      | exn msg => simp [hp, hl, ha, directCount, isDirectEv]
      | resp s2 ct body =>
        by_cases hb : 0 < body.length <;>
          simp [hp, hl, ha, hb, directCount, isDirectEv]

/-- If the fallback reports success, it wrote a nonempty file at the
destination and wrote no zero-byte file at all. -/
theorem dfp_success_inv (env : ItemEnv) (abstract_id output_path : String) (fs : FS)
    (h : (download_from_page env abstract_id output_path fs).success = true) :
    (∃ bs : List Nat,
        (download_from_page env abstract_id output_path fs).fs output_path
          = some (FileData.bytes bs) ∧ 0 < bs.length)
    ∧ ∀ s, Event.write s 0 ∉ (download_from_page env abstract_id output_path fs).trace := by
  simp only [download_from_page] at h ⊢
  cases hp : effectivePage env with
  | exn msg => simp [hp] at h
  | resp status anchors =>
    cases hl : findDownloadLink abstract_id anchors with
    | none => simp [hp, hl] at h
    | some dl =>
      cases ha : effectiveAnchor env with
      | exn msg => simp [hp, hl, ha] at h
      | resp s2 ct body =>
        by_cases hb : 0 < body.length
        · constructor
          · exact ⟨body, by simp [hp, hl, ha, hb, fsInsert], hb⟩
          · intro s hmem
            simp [hp, hl, ha, hb] at hmem
            omega
        · simp [hp, hl, ha, hb] at h

/-- Paths other than the destination are untouched by the fallback. -/
theorem dfp_fs_pres (env : ItemEnv) (abstract_id output_path : String) (fs : FS)
    (q : String) (hq : q ≠ output_path) :
    (download_from_page env abstract_id output_path fs).fs q = fs q := by
  simp only [download_from_page]
  cases hp : effectivePage env with
  | exn msg => simp [hp]
  | resp status anchors =>
    cases hl : findDownloadLink abstract_id anchors with
    | none => simp [hp, hl]
    | some dl =>
      cases ha : effectiveAnchor env with
      | exn msg => simp [hp, hl, ha]
      | resp s2 ct body =>
        by_cases hb : 0 < body.length <;> simp [hp, hl, ha, hb, fsInsert, hq]

/-- The retry loop invokes the fallback at most once, whatever the
environment does. -/
theorem loop_fallbackCount (env : ItemEnv) (url output_path abstract_id : String) :
    ∀ (fuel attempt : Nat) (le : Option String) (fs : FS),
      fallbackCount
        (downloadPdfLoop env url output_path abstract_id fuel attempt le fs).trace ≤ 1 := by
  intro fuel
  induction fuel with
  | zero =>
    intro attempt le fs
    simp [downloadPdfLoop, fallbackCount]
  | succ fuel ih =>
    intro attempt le fs
    simp only [downloadPdfLoop]
    cases hd : effectiveDirect env attempt with
    | exn msg =>
      by_cases hfu : 0 < fuel
      · simpa [hd, hfu, fallbackCount, isFallbackEv] using ih (attempt + 1) (some msg) fs
      · have hfb := dfp_fallbackCount env abstract_id output_path fs
        simp only [fallbackCount] at hfb
        simp only [hd, if_neg hfu]
        split <;>
          simp [fallbackCount, List.countP_cons, isFallbackEv, hfb]
    | resp s2 ct body =>
      simp only [hd]
      split
      · have hfb := dfp_fallbackCount env abstract_id output_path fs
        simp only [fallbackCount] at hfb
        simp [fallbackCount, List.countP_cons, isFallbackEv, hfb]
      · split <;> simp [fallbackCount, isFallbackEv]

/-- If the retry loop reports success, it left a nonempty file at the
destination and never wrote a zero-byte file. -/
theorem loop_success_inv (env : ItemEnv) (url output_path abstract_id : String) :
    ∀ (fuel attempt : Nat) (le : Option String) (fs : FS),
      (downloadPdfLoop env url output_path abstract_id fuel attempt le fs).success = true →
      (∃ bs : List Nat,
          (downloadPdfLoop env url output_path abstract_id fuel attempt le fs).fs output_path
            = some (FileData.bytes bs) ∧ 0 < bs.length)
      ∧ ∀ s, Event.write s 0 ∉
          (downloadPdfLoop env url output_path abstract_id fuel attempt le fs).trace := by
  intro fuel
  induction fuel with
  | zero =>
    intro attempt le fs h
    simp [downloadPdfLoop] at h
  | succ fuel ih =>
    intro attempt le fs h
    simp only [downloadPdfLoop] at h ⊢
    cases hd : effectiveDirect env attempt with
    | exn msg =>
      by_cases hfu : 0 < fuel
      · simp only [hd, if_pos hfu] at h ⊢
        obtain ⟨hfile, hnw⟩ := ih (attempt + 1) (some msg) fs (by simpa using h)
        refine ⟨by simpa using hfile, ?_⟩
        intro s hmem
        simp at hmem
        exact hnw s hmem
      · simp only [hd, if_neg hfu] at h ⊢
        by_cases hs : (download_from_page env abstract_id output_path fs).success = true
        · obtain ⟨hfile, hnw⟩ := dfp_success_inv env abstract_id output_path fs hs
          refine ⟨by simpa [hs] using hfile, ?_⟩
          intro s hmem
          simp [hs] at hmem
          exact hnw s (by simpa using hmem)
        · simp [hs] at h
    | resp s2 ct body =>
      simp only [hd] at h ⊢
      by_cases hc : (!hasSub (lowerList ct.data) (("pdf").data)
          && !endsWithPat url.data ((".pdf").data)) = true
      · simp only [hc, if_pos] at h ⊢
        have hs : (download_from_page env abstract_id output_path fs).success = true := by
          simpa using h
        obtain ⟨hfile, hnw⟩ := dfp_success_inv env abstract_id output_path fs hs
        refine ⟨by simpa using hfile, ?_⟩
        intro s hmem
        simp at hmem
        exact hnw s hmem
      · simp only [hc] at h ⊢
        by_cases hb : 0 < body.length
        · refine ⟨⟨body, by simp [hb, fsInsert], hb⟩, ?_⟩
          intro s hmem
          simp [hb] at hmem
          omega
        · simp [hb] at h

/-- Paths other than the destination are untouched by the retry loop. -/
theorem loop_fs_pres (env : ItemEnv) (url output_path abstract_id : String)
    (q : String) (hq : q ≠ output_path) :
    ∀ (fuel attempt : Nat) (le : Option String) (fs : FS),
      (downloadPdfLoop env url output_path abstract_id fuel attempt le fs).fs q = fs q := by
  intro fuel
  induction fuel with
  | zero =>
    intro attempt le fs
    simp [downloadPdfLoop]
  | succ fuel ih =>
    intro attempt le fs
    simp only [downloadPdfLoop]
    cases hd : effectiveDirect env attempt with
    | exn msg =>
      by_cases hfu : 0 < fuel
      · simpa [hd, hfu] using ih (attempt + 1) (some msg) fs
      · have hp := dfp_fs_pres env abstract_id output_path fs q hq
        simp only [hd, if_neg hfu]
        split <;> simpa using hp
    | resp s2 ct body =>
      simp only [hd]
      split
      · simpa using dfp_fs_pres env abstract_id output_path fs q hq
      · split <;> simp [fsInsert, hq]

/-- With at least one attempt of fuel, the retry loop never reaches the
post-loop return site. -/
theorem loop_site (env : ItemEnv) (url output_path abstract_id : String) :
    ∀ (fuel attempt : Nat) (le : Option String) (fs : FS), 0 < fuel →
      (downloadPdfLoop env url output_path abstract_id fuel attempt le fs).site
          = Site.directSuccess ∨
      (downloadPdfLoop env url output_path abstract_id fuel attempt le fs).site
          = Site.zeroByte ∨
      (downloadPdfLoop env url output_path abstract_id fuel attempt le fs).site
          = Site.ctypeFallback ∨
      (downloadPdfLoop env url output_path abstract_id fuel attempt le fs).site
          = Site.finalFallback ∨
      (downloadPdfLoop env url output_path abstract_id fuel attempt le fs).site
          = Site.finalCombined := by
  intro fuel
  induction fuel with
  | zero =>
    intro attempt le fs h
    exact absurd h (by omega)
  | succ fuel ih =>
    intro attempt le fs _
    simp only [downloadPdfLoop]
    cases hd : effectiveDirect env attempt with
    | exn msg =>
      by_cases hfu : 0 < fuel
      · simpa [hd, hfu] using ih (attempt + 1) (some msg) fs hfu
      · simp only [hd, if_neg hfu]
        split <;> simp
    | resp s2 ct body =>
      simp only [hd]
      split
      · simp
      · split <;> simp

/-- `download_pdf` leaves every path other than the destination untouched. -/
theorem download_pdf_fs_pres (env : ItemEnv) (url output_path abstract_id : String)
    (fs : FS) (q : String) (hq : q ≠ output_path) :
    (download_pdf env url output_path abstract_id fs).fs q = fs q :=
  loop_fs_pres env url output_path abstract_id q hq MAX_RETRIES 0 none fs

/-- If `download_pdf` reports success, it left a nonempty file at the
destination and never wrote a zero-byte file. -/
theorem download_pdf_success_inv (env : ItemEnv) (url output_path abstract_id : String)
    (fs : FS) (h : (download_pdf env url output_path abstract_id fs).success = true) :
    (∃ bs : List Nat,
        (download_pdf env url output_path abstract_id fs).fs output_path
          = some (FileData.bytes bs) ∧ 0 < bs.length)
    ∧ ∀ s, Event.write s 0 ∉ (download_pdf env url output_path abstract_id fs).trace :=
  loop_success_inv env url output_path abstract_id MAX_RETRIES 0 none fs h

/-- Every orchestrator iteration bumps exactly one counter. -/
theorem mainStep_sum (env : ItemEnv) (url : String) (st : RunState) :
    (mainStep env url st).success_count + (mainStep env url st).fail_count
        + (mainStep env url st).skip_count
      = st.success_count + st.fail_count + st.skip_count + 1 := by
  unfold mainStep
  cases hid : extract_abstract_id url with
  | none => simp; omega
  | some abstract_id =>
    dsimp only
    split
    · simp
      omega
    · split <;> simp <;> omega

/-- The failure counter always equals the failure-list length. -/
theorem mainStep_faillen (env : ItemEnv) (url : String) (st : RunState)
    (h : st.fail_count = st.failed_downloads.length) :
    (mainStep env url st).fail_count = (mainStep env url st).failed_downloads.length := by
  unfold mainStep
  cases hid : extract_abstract_id url with
  | none => simp [h]
  | some abstract_id =>
    dsimp only
    split
    · simpa using h
    · split
      · simpa using h
      · simp [h]

/-- One orchestrator iteration never touches the failure-log path. -/
theorem mainStep_fs_log (env : ItemEnv) (url : String) (st : RunState) :
    (mainStep env url st).fs FAILED_LOG_FILE = st.fs FAILED_LOG_FILE := by
  unfold mainStep
  cases hid : extract_abstract_id url with
  | none => rfl
  | some abstract_id =>
    have hq : FAILED_LOG_FILE ≠ outputPathFor abstract_id :=
      Ne.symm (outputPath_ne_log abstract_id)
    dsimp only
    split
    · rfl
    · split
      · simpa using download_pdf_fs_pres env (get_download_url abstract_id)
          (outputPathFor abstract_id) abstract_id st.fs FAILED_LOG_FILE hq
      · have hpres := download_pdf_fs_pres env (get_download_url abstract_id)
          (outputPathFor abstract_id) abstract_id st.fs FAILED_LOG_FILE hq
        dsimp only
        split
        · simpa [fsErase, hq] using hpres
        · simpa using hpres

/-- Counter bookkeeping over the whole loop. -/
theorem runLoop_sum (env : Nat → ItemEnv) (total : Nat) :
    ∀ (urls : List String) (i : Nat) (st : RunState),
      (runLoop env total i urls st).success_count
          + (runLoop env total i urls st).fail_count
          + (runLoop env total i urls st).skip_count
        = st.success_count + st.fail_count + st.skip_count + urls.length := by
  intro urls
  induction urls with
  | nil => intro i st; simp [runLoop]
  | cons url rest ih =>
    intro i st
    simp only [runLoop]
    have hstep := mainStep_sum (env i) url st
    by_cases hi : i < total
    · simp only [if_pos hi]
      rw [ih]
      simp only [List.length_cons]
      omega
    · simp only [if_neg hi]
      rw [ih]
      simp only [List.length_cons]
      omega

/-- Failure-count/failure-list agreement over the whole loop. -/
theorem runLoop_faillen (env : Nat → ItemEnv) (total : Nat) :
    ∀ (urls : List String) (i : Nat) (st : RunState),
      st.fail_count = st.failed_downloads.length →
      (runLoop env total i urls st).fail_count
        = (runLoop env total i urls st).failed_downloads.length := by
  intro urls
  induction urls with
  | nil => intro i st h; simpa [runLoop] using h
  | cons url rest ih =>
    intro i st h
    simp only [runLoop]
    have h1 := mainStep_faillen (env i) url st h
    by_cases hi : i < total
    · simp only [if_pos hi]
      exact ih (i + 1) _ (by simpa using h1)
    · simp only [if_neg hi]
      exact ih (i + 1) _ h1

/-- The loop never touches the failure-log path. -/
theorem runLoop_fs_log (env : Nat → ItemEnv) (total : Nat) :
    ∀ (urls : List String) (i : Nat) (st : RunState),
      (runLoop env total i urls st).fs FAILED_LOG_FILE = st.fs FAILED_LOG_FILE := by
  intro urls
  induction urls with
  | nil => intro i st; simp [runLoop]
  | cons url rest ih =>
    intro i st
    simp only [runLoop]
    have h1 := mainStep_fs_log (env i) url st
    by_cases hi : i < total
    · simp only [if_pos hi]
      rw [ih]
      simpa using h1
    · simp only [if_neg hi]
      rw [ih]
      exact h1

/-- The final log write changes neither the counters nor the failure list. -/
theorem main_components (env : Nat → ItemEnv) (urls : List String) (fs0 : FS) :
    (main env urls fs0).success_count
        = (runLoop env urls.length 1 urls (runStateInit fs0)).success_count
    ∧ (main env urls fs0).fail_count
        = (runLoop env urls.length 1 urls (runStateInit fs0)).fail_count
    ∧ (main env urls fs0).skip_count
        = (runLoop env urls.length 1 urls (runStateInit fs0)).skip_count
    ∧ (main env urls fs0).failed_downloads
        = (runLoop env urls.length 1 urls (runStateInit fs0)).failed_downloads := by
  unfold main
  dsimp only
  split <;> simp

/-- The regex cannot match at the end of the input. -/
theorem idMatchHere_nil : idMatchHere [] = false := rfl

/-- Dropping past the end of the input leaves nothing to match. -/
theorem idMatchHere_drop_large (l : List Char) (j : Nat) (h : l.length ≤ j) :
    idMatchHere (l.drop j) = false := by
  rw [List.drop_eq_nil_of_le h]
  exact idMatchHere_nil

/-- The scan returns the absence signal exactly when the pattern matches at
no position. -/
theorem extractIdAux_none_iff (l : List Char) :
    extractIdAux l = none ↔ ∀ j, idMatchHere (l.drop j) = false := by
  induction l with
  | nil => simp [extractIdAux, idMatchHere_nil]
  | cons c cs ih =>
    cases h : idMatchHere (c :: cs) with
    | true =>
      apply iff_of_false
      · simp [extractIdAux, h]
      · intro hall
        have h0 := hall 0
        simp [h] at h0
    | false =>
      rw [show extractIdAux (c :: cs) = extractIdAux cs from by simp [extractIdAux, h]]
      rw [ih]
      constructor
      · intro hall j
        cases j with
        | zero => simpa using h
        | succ j => simpa using hall j
      · intro hall j
        simpa using hall (j + 1)

/-- If `i` is the leftmost matching position, the scan returns the digit
run found there. -/
theorem extractIdAux_first (l : List Char) :
    ∀ i : Nat, (∀ j, j < i → idMatchHere (l.drop j) = false) →
      idMatchHere (l.drop i) = true →
      extractIdAux l = some (takeDigits (l.drop (i + idPat.length))) := by
  induction l with
  | nil =>
    intro i _ hm
    rw [List.drop_nil, idMatchHere_nil] at hm
    exact absurd hm (by simp)
  | cons c cs ih =>
    intro i hlt hm
    cases i with
    | zero =>
      rw [List.drop_zero] at hm
      simp [extractIdAux, hm]
    | succ i =>
      have h0 : idMatchHere (c :: cs) = false := by
        simpa using hlt 0 (Nat.succ_pos i)
      rw [show extractIdAux (c :: cs) = extractIdAux cs from by simp [extractIdAux, h0]]
      have hlt2 : ∀ j, j < i → idMatchHere (cs.drop j) = false := by
        intro j hj
        simpa using hlt (j + 1) (Nat.succ_lt_succ hj)
      have hm2 : idMatchHere (cs.drop i) = true := by simpa using hm
      rw [ih i hlt2 hm2]
      have harg : (c :: cs).drop (i + 1 + idPat.length) = cs.drop (i + idPat.length) := by
        rw [show i + 1 + idPat.length = i + idPat.length + 1 from by omega]
        simp
      rw [harg]

/-! ## Claim theorems -/

/-- Claim C1: for an item whose direct GET raises a transport exception on
all attempts, `download_pdf` performs exactly `MAX_RETRIES` (3) direct GET
attempts with a 2-time-unit sleep between consecutive attempts, does not
sleep or retry after the final attempt but invokes the Page-Scrape Fallback
exactly once, and if the fallback also fails, the returned error message
combines the direct-download error and the fallback error. -/
theorem download_pdf_retry_exhaustion (env : ItemEnv)
    (url output_path abstract_id : String) (fs : FS) (m0 m1 m2 : String)
    (h0 : env.direct 0 = GetOutcome.exn m0)
    (h1 : env.direct 1 = GetOutcome.exn m1)
    (h2 : env.direct 2 = GetOutcome.exn m2) :
    (download_pdf env url output_path abstract_id fs).trace
        = Event.getDirect url :: Event.sleep 2 :: Event.getDirect url :: Event.sleep 2 ::
            Event.getDirect url
              :: (download_from_page env abstract_id output_path fs).trace
    ∧ directCount (download_pdf env url output_path abstract_id fs).trace = 3
    ∧ fallbackCount (download_pdf env url output_path abstract_id fs).trace = 1
    ∧ ((download_from_page env abstract_id output_path fs).success = false →
        (download_pdf env url output_path abstract_id fs).success = false
        ∧ (download_pdf env url output_path abstract_id fs).error
            = some (("Direct download failed: ") ++ m2 ++
                ("; Page parsing also failed: ")
                ++ pyStr (download_from_page env abstract_id output_path fs).error))
    ∧ ((download_from_page env abstract_id output_path fs).success = true →
        (download_pdf env url output_path abstract_id fs).success = true
        ∧ (download_pdf env url output_path abstract_id fs).error
            = (download_from_page env abstract_id output_path fs).error) := by
  have e0 : effectiveDirect env 0 = GetOutcome.exn m0 := by rw [effectiveDirect, h0]; rfl
  have e1 : effectiveDirect env 1 = GetOutcome.exn m1 := by rw [effectiveDirect, h1]; rfl
  have e2 : effectiveDirect env 2 = GetOutcome.exn m2 := by rw [effectiveDirect, h2]; rfl
  have htr : (download_pdf env url output_path abstract_id fs).trace
      = Event.getDirect url :: Event.sleep 2 :: Event.getDirect url :: Event.sleep 2 ::
          Event.getDirect url
            :: (download_from_page env abstract_id output_path fs).trace := by
    cases hs : (download_from_page env abstract_id output_path fs).success <;>
      simp [download_pdf, MAX_RETRIES, downloadPdfLoop, e0, e1, e2, hs]
  refine ⟨htr, ?_, ?_, ?_, ?_⟩
  · have hd := dfp_directCount env abstract_id output_path fs
    rw [htr]
    simpa [directCount, isDirectEv, List.countP_cons] using hd
  · have hf := dfp_fallbackCount env abstract_id output_path fs
    rw [htr]
    simpa [fallbackCount, isFallbackEv, List.countP_cons] using hf
  · intro hs
    constructor <;>
      simp [download_pdf, MAX_RETRIES, downloadPdfLoop, e0, e1, e2, hs]
  · intro hs
    constructor <;>
      simp [download_pdf, MAX_RETRIES, downloadPdfLoop, e0, e1, e2, hs]

/-- Witness for C1: with three concrete transport exceptions and a failing
fallback, the trace and the combined error message come out as claimed. -/
theorem download_pdf_retry_exhaustion_witness :
    (download_pdf envAllExn (get_download_url ("42")) (outputPathFor ("42")) ("42")
        fsEmpty).success = false
    ∧ (download_pdf envAllExn (get_download_url ("42")) (outputPathFor ("42")) ("42")
        fsEmpty).error
        = some ("Direct download failed: connection reset; Page parsing also failed: Page request failed: connection refused")
    ∧ directCount (download_pdf envAllExn (get_download_url ("42")) (outputPathFor ("42"))
        ("42") fsEmpty).trace = 3
    ∧ fallbackCount (download_pdf envAllExn (get_download_url ("42")) (outputPathFor ("42"))
        ("42") fsEmpty).trace = 1 := by
  have h := download_pdf_retry_exhaustion envAllExn (get_download_url ("42"))
    (outputPathFor ("42")) ("42") fsEmpty ("connection reset") ("connection reset")
    ("connection reset") rfl rfl rfl
  obtain ⟨-, hd, hf, hcomb, -⟩ := h
  obtain ⟨hsucc, herr⟩ := hcomb rfl
  refine ⟨hsucc, ?_, hd, hf⟩
  rw [herr]
  rfl

/-- Claim C2: per `download_pdf` call, the Page-Scrape Fallback runs at
most once, whether triggered by a content-type mismatch on some attempt or
by a transport exception on the final attempt. -/
theorem download_pdf_fallback_at_most_once (env : ItemEnv)
    (url output_path abstract_id : String) (fs : FS) :
    fallbackCount (download_pdf env url output_path abstract_id fs).trace ≤ 1 :=
  loop_fallbackCount env url output_path abstract_id MAX_RETRIES 0 none fs

/-- Claim C5: after a full run, every input URL bumped exactly one counter,
so the three counters sum to the number of input URLs. -/
theorem main_counter_partition (env : Nat → ItemEnv) (urls : List String) (fs0 : FS) :
    (main env urls fs0).success_count + (main env urls fs0).fail_count
        + (main env urls fs0).skip_count = urls.length := by
  obtain ⟨hs, hf, hk, -⟩ := main_components env urls fs0
  rw [hs, hf, hk, runLoop_sum]
  simp [runStateInit]

/-- Claim C8: `extract_abstract_id` returns exactly the digits of the first
`abstract_id=<digits>` occurrence, and the absence signal when no position
matches; as a pure function it has no side effects. -/
theorem extract_abstract_id_spec (url : String) :
    (extract_abstract_id url = none ↔ ∀ j, idMatchHere (url.data.drop j) = false)
    ∧ ∀ i : Nat, (∀ j, j < i → idMatchHere (url.data.drop j) = false) →
        idMatchHere (url.data.drop i) = true →
        extract_abstract_id url
          = some (String.mk (takeDigits (url.data.drop (i + idPat.length)))) := by
  constructor
  · rw [show (extract_abstract_id url = none) ↔ (extractIdAux url.data = none) from by
      simp [extract_abstract_id]]
    exact extractIdAux_none_iff url.data
  · intro i hlt hm
    simp [extract_abstract_id, extractIdAux_first url.data i hlt hm]

/-- Witness for C8: the first of two occurrences wins, and a URL without
the pattern yields the absence signal. -/
theorem extract_abstract_id_spec_witness :
    extract_abstract_id ("u?abstract_id=12&abstract_id=34") = some ("12")
    ∧ extract_abstract_id ("https://example.com/no-id-here") = none := by
  constructor
  · have h := (extract_abstract_id_spec ("u?abstract_id=12&abstract_id=34")).2 2
      (by intro j hj; interval_cases j <;> decide) (by decide)
    rw [h]
    decide
  · refine (extract_abstract_id_spec ("https://example.com/no-id-here")).1.mpr ?_
    intro j
    by_cases hj : j < 30
    · interval_cases j <;> decide
    · refine idMatchHere_drop_large _ j ?_
      have hlen : ("https://example.com/no-id-here").data.length = 30 := by decide
      omega

/-- Claim C9: a discovered href resolves to the host-prefixed URL when it
starts with '/', to host + '/sol3/' when it starts with 'Delivery.cfm',
and is otherwise taken as already absolute; the fallback's second GET
targets exactly the resolved URL. -/
theorem resolveDownloadLink_spec (download_link : String) :
    (startsWithStr download_link ("/") = true →
        resolveDownloadLink download_link
          = ("https://papers.ssrn.com") ++ download_link)
    ∧ (startsWithStr download_link ("/") = false →
        startsWithStr download_link ("Delivery.cfm") = true →
        resolveDownloadLink download_link
          = ("https://papers.ssrn.com/sol3/") ++ download_link)
    ∧ (startsWithStr download_link ("/") = false →
        startsWithStr download_link ("Delivery.cfm") = false →
        resolveDownloadLink download_link = download_link)
    ∧ ∀ (env : ItemEnv) (abstract_id output_path : String) (fs : FS) (status : Nat)
        (anchors : List Anchor),
        env.page = PageOutcome.resp status anchors → status < 400 →
        findDownloadLink abstract_id anchors = some download_link →
        Event.getAnchor (resolveDownloadLink download_link)
          ∈ (download_from_page env abstract_id output_path fs).trace := by
  refine ⟨?_, ?_, ?_, ?_⟩
  · intro h; simp [resolveDownloadLink, h]
  · intro h1 h2; simp [resolveDownloadLink, h1, h2]
  · intro h1 h2; simp [resolveDownloadLink, h1, h2]
  · intro env abstract_id output_path fs status anchors hpage hst hfind
    have hp : effectivePage env = PageOutcome.resp status anchors := by
      simp only [effectivePage, hpage]
      rw [if_neg (by omega)]
    simp only [download_from_page, hp, hfind]
    cases ha : effectiveAnchor env with
    | exn msg => simp [ha]
    | resp s2 ct body => by_cases hb : 0 < body.length <;> simp [ha, hb]

/-- Witness for C9: the three href shapes and one concrete fallback run. -/
theorem resolveDownloadLink_spec_witness :
    resolveDownloadLink ("/relative/path.pdf")
        = ("https://papers.ssrn.com") ++ ("/relative/path.pdf")
    ∧ resolveDownloadLink ("Delivery.cfm/42.pdf?abstractid=42&mirid=1")
        = ("https://papers.ssrn.com/sol3/") ++ ("Delivery.cfm/42.pdf?abstractid=42&mirid=1")
    ∧ resolveDownloadLink ("https://elsewhere.example/x.pdf")
        = ("https://elsewhere.example/x.pdf")
    ∧ Event.getAnchor (resolveDownloadLink ("Delivery.cfm/42.pdf?abstractid=42&mirid=1"))
        ∈ (download_from_page envZero ("42") (outputPathFor ("42")) fsEmpty).trace := by
  refine ⟨?_, ?_, ?_, ?_⟩
  · exact (resolveDownloadLink_spec _).1 (by decide)
  · exact (resolveDownloadLink_spec _).2.1 (by decide) (by decide)
  · exact (resolveDownloadLink_spec _).2.2.1 (by decide) (by decide)
  · exact (resolveDownloadLink_spec _).2.2.2 envZero ("42") (outputPathFor ("42")) fsEmpty
      200 _ rfl (by decide) (by decide)

/-- Claim C10: every execution of `download_pdf` returns from inside the
retry loop — direct success, zero-byte failure, content-type fallback, or
final-attempt fallback / combined failure — and the trailing post-loop
return (message starting with the text All retry attempts failed) is
unreachable. -/
theorem download_pdf_returns_in_loop (env : ItemEnv)
    (url output_path abstract_id : String) (fs : FS) :
    ((download_pdf env url output_path abstract_id fs).site = Site.directSuccess ∨
     (download_pdf env url output_path abstract_id fs).site = Site.zeroByte ∨
     (download_pdf env url output_path abstract_id fs).site = Site.ctypeFallback ∨
     (download_pdf env url output_path abstract_id fs).site = Site.finalFallback ∨
     (download_pdf env url output_path abstract_id fs).site = Site.finalCombined)
    ∧ (download_pdf env url output_path abstract_id fs).site ≠ Site.postLoop := by
  have h := loop_site env url output_path abstract_id MAX_RETRIES 0 none fs (by decide)
  refine ⟨h, ?_⟩
  rcases h with h | h | h | h | h <;> simp [download_pdf, h]

/-- Claim C3: a zero-byte downloaded file is never counted as a success —
a zero-byte write inside `download_from_page` or `download_pdf` forces a
failure result, and after the orchestrator processes a fresh item (deleting
the file on failure) no zero-byte file remains at the destination path. -/
theorem zero_byte_never_success :
    (∀ (env : ItemEnv) (abstract_id output_path : String) (fs : FS) (s : String),
        Event.write s 0 ∈ (download_from_page env abstract_id output_path fs).trace →
        (download_from_page env abstract_id output_path fs).success = false)
    ∧ (∀ (env : ItemEnv) (url output_path abstract_id : String) (fs : FS) (s : String),
        Event.write s 0 ∈ (download_pdf env url output_path abstract_id fs).trace →
        (download_pdf env url output_path abstract_id fs).success = false)
    ∧ (∀ (env : ItemEnv) (url abstract_id : String) (st : RunState),
        extract_abstract_id url = some abstract_id →
        st.fs (outputPathFor abstract_id) = none →
        ∀ bs : List Nat,
          (mainStep env url st).fs (outputPathFor abstract_id)
              = some (FileData.bytes bs) →
          0 < bs.length) := by
  refine ⟨?_, ?_, ?_⟩
  · intro env abstract_id output_path fs s hmem
    cases hsucc : (download_from_page env abstract_id output_path fs).success with
    | false => rfl
    | true =>
      exact absurd hmem ((dfp_success_inv env abstract_id output_path fs hsucc).2 s)
  · intro env url output_path abstract_id fs s hmem
    cases hsucc : (download_pdf env url output_path abstract_id fs).success with
    | false => rfl
    | true =>
      exact absurd hmem
        ((download_pdf_success_inv env url output_path abstract_id fs hsucc).2 s)
  · intro env url abstract_id st hid hnone bs hfs
    have hiff : (st.fs (outputPathFor abstract_id)).isSome = false := by rw [hnone]; rfl
    simp only [mainStep, hid] at hfs
    rw [hiff] at hfs
    simp only [Bool.false_eq_true, if_false] at hfs
    cases hsucc : (download_pdf env (get_download_url abstract_id)
        (outputPathFor abstract_id) abstract_id st.fs).success with
    | true =>
      obtain ⟨⟨bs2, hbs2, hlen⟩, -⟩ := download_pdf_success_inv env
        (get_download_url abstract_id) (outputPathFor abstract_id) abstract_id st.fs hsucc
      simp only [hsucc, if_true] at hfs
      rw [hbs2] at hfs
      simp only [Option.some.injEq, FileData.bytes.injEq] at hfs
      rw [← hfs]
      exact hlen
    | false =>
      simp only [hsucc, Bool.false_eq_true, if_false] at hfs
      by_cases hdel : ((download_pdf env (get_download_url abstract_id)
          (outputPathFor abstract_id) abstract_id st.fs).fs
            (outputPathFor abstract_id)).isSome = true
      · simp only [hdel, if_true] at hfs
        simp [fsErase] at hfs
      · have hdel2 : (download_pdf env (get_download_url abstract_id)
            (outputPathFor abstract_id) abstract_id st.fs).fs
              (outputPathFor abstract_id) = none := by
          rcases hcase : (download_pdf env (get_download_url abstract_id)
              (outputPathFor abstract_id) abstract_id st.fs).fs
                (outputPathFor abstract_id) with _ | v
          · rfl
          · rw [hcase] at hdel
            simp at hdel
        simp [hdel2] at hfs

/-- Witness for C3: an empty direct body is rejected by both fetchers, and
the success path always leaves a nonempty file. -/
theorem zero_byte_never_success_witness :
    (download_from_page envZero ("42") (outputPathFor ("42")) fsEmpty).success = false
    ∧ (download_pdf envZero (get_download_url ("42")) (outputPathFor ("42")) ("42")
        fsEmpty).success = false
    ∧ 0 < ([37] : List Nat).length := by
  refine ⟨?_, ?_, ?_⟩
  · exact zero_byte_never_success.1 envZero ("42") (outputPathFor ("42")) fsEmpty
      (outputPathFor ("42")) (by decide)
  · exact zero_byte_never_success.2.1 envZero (get_download_url ("42"))
      (outputPathFor ("42")) ("42") fsEmpty (outputPathFor ("42")) (by decide)
  · exact zero_byte_never_success.2.2 envOk ("https://x?abstract_id=7") ("7")
      (runStateInit fsEmpty) (by decide) rfl [37] rfl

/-- Claim C4: when the destination file already exists, the orchestrator
iteration only bumps the skip counter — the state equation shows no network
call is made, no failure record is appended, and the filesystem (hence the
existing file) and trace are untouched. -/
theorem skip_existing (env : ItemEnv) (url abstract_id : String) (st : RunState)
    (hid : extract_abstract_id url = some abstract_id)
    (hex : (st.fs (outputPathFor abstract_id)).isSome = true) :
    mainStep env url st = { st with skip_count := st.skip_count + 1 } := by
  simp only [mainStep, hid]
  rw [if_pos hex]

/-- Witness for C4: a disk already holding `ssrn_papers/7.pdf`. -/
theorem skip_existing_witness :
    mainStep envOk ("https://x?abstract_id=7")
        (runStateInit (fsInsert fsEmpty (outputPathFor ("7")) (FileData.bytes [1])))
      = { runStateInit (fsInsert fsEmpty (outputPathFor ("7")) (FileData.bytes [1])) with
          skip_count := 0 + 1 } :=
  skip_existing envOk ("https://x?abstract_id=7") ("7")
    (runStateInit (fsInsert fsEmpty (outputPathFor ("7")) (FileData.bytes [1])))
    (by decide) rfl

/-- What `main` does to the failure-log path: written with exactly this
run's records when the failure list is nonempty, untouched otherwise. -/
theorem main_fs_log_eq (env : Nat → ItemEnv) (urls : List String) (fs0 : FS) :
    ((main env urls fs0).failed_downloads ≠ [] →
        (main env urls fs0).fs FAILED_LOG_FILE
          = some (FileData.json (logContent (main env urls fs0).failed_downloads)))
    ∧ ((main env urls fs0).failed_downloads = [] →
        (main env urls fs0).fs FAILED_LOG_FILE = fs0 FAILED_LOG_FILE) := by
  have h4 := (main_components env urls fs0).2.2.2
  constructor
  · intro h
    rw [h4] at h
    have hne : (runLoop env urls.length 1 urls
        (runStateInit fs0)).failed_downloads.isEmpty = false := by
      simpa [List.isEmpty_iff] using h
    have hmain : main env urls fs0
        = { runLoop env urls.length 1 urls (runStateInit fs0) with
            fs := fsInsert (runLoop env urls.length 1 urls (runStateInit fs0)).fs
              FAILED_LOG_FILE
              (FileData.json (logContent
                (runLoop env urls.length 1 urls (runStateInit fs0)).failed_downloads)) } := by
      unfold main
      dsimp only
      simp [hne]
    rw [hmain]
    simp [fsInsert]
  · intro h
    rw [h4] at h
    have hemp : (runLoop env urls.length 1 urls
        (runStateInit fs0)).failed_downloads.isEmpty = true := by
      simp [List.isEmpty_iff, h]
    have hmain : main env urls fs0 = runLoop env urls.length 1 urls (runStateInit fs0) := by
      unfold main
      dsimp only
      simp [hemp]
    rw [hmain, runLoop_fs_log]
    rfl

/-- Claim C6: whenever the in-memory failure list is nonempty at run end,
the failure log is written and holds a JSON array whose length equals
`fail_count`, each element carrying the source URL, the identifier or
null, an error description, and a timestamp. -/
theorem failure_log_spec (env : Nat → ItemEnv) (urls : List String) (fs0 : FS)
    (h : (main env urls fs0).failed_downloads ≠ []) :
    (main env urls fs0).fs FAILED_LOG_FILE
        = some (FileData.json (logContent (main env urls fs0).failed_downloads))
    ∧ ((main env urls fs0).failed_downloads.map recordToJson).length
        = (main env urls fs0).fail_count
    ∧ ∀ r ∈ (main env urls fs0).failed_downloads,
        recordToJson r
          = Json.obj [(("url"), Json.str r.url),
              (("abstract_id"), jsonOfOpt r.abstract_id),
              (("error"), Json.str r.error),
              (("timestamp"), Json.str r.timestamp)] := by
  refine ⟨(main_fs_log_eq env urls fs0).1 h, ?_, ?_⟩
  · obtain ⟨-, h2, -, h4⟩ := main_components env urls fs0
    rw [h4, h2, List.length_map]
    exact (runLoop_faillen env urls.length urls 1 (runStateInit fs0) rfl).symm
  · intro r _
    rfl

/-- Witness for C6: a one-item run whose URL has no identifier. -/
theorem failure_log_spec_witness :
    (main (fun _ => envOk) [("no-id-here")] fsEmpty).fs FAILED_LOG_FILE
        = some (FileData.json (logContent
            (main (fun _ => envOk) [("no-id-here")] fsEmpty).failed_downloads))
    ∧ ((main (fun _ => envOk) [("no-id-here")] fsEmpty).failed_downloads.map
          recordToJson).length
        = (main (fun _ => envOk) [("no-id-here")] fsEmpty).fail_count := by
  have h := failure_log_spec (fun _ => envOk) [("no-id-here")] fsEmpty (by decide)
  exact ⟨h.1, h.2.1⟩

/-- Counterexample to C7 as stated: a run with zero failures does not touch
the log file, so a stale log from a prior run remains and the log does not
reflect this run's (empty) failure set. -/
theorem stale_log_counterexample :
    (main (fun _ => envOk) [("https://x?abstract_id=7")] fsStale).fail_count = 0
    ∧ (main (fun _ => envOk) [("https://x?abstract_id=7")] fsStale).failed_downloads = []
    ∧ (main (fun _ => envOk) [("https://x?abstract_id=7")] fsStale).fs FAILED_LOG_FILE
        = some (FileData.json (Json.str ("stale")))
    ∧ Json.str ("stale") ≠ logContent [] := by
  refine ⟨by decide, by decide, rfl, ?_⟩
  intro hcontra
  simp only [logContent, List.map_nil] at hcontra
  exact Json.noConfusion hcontra

/-- Claim C7 (amended): after a run with at least one failure the log file
holds exactly this run's failure records, overwriting any prior content
rather than appending; after a run with zero failures the log file is not
written at all, so a log from a prior run remains in place. -/
theorem log_overwrite_amended (env : Nat → ItemEnv) (urls : List String) (fs0 : FS) :
    ((main env urls fs0).failed_downloads ≠ [] →
        (main env urls fs0).fs FAILED_LOG_FILE
          = some (FileData.json (logContent (main env urls fs0).failed_downloads)))
    ∧ ((main env urls fs0).failed_downloads = [] →
        (main env urls fs0).fs FAILED_LOG_FILE = fs0 FAILED_LOG_FILE) :=
  main_fs_log_eq env urls fs0

/-- Witness for the amended C7: a failing run overwrites a stale log and a
clean run leaves it untouched. -/
theorem log_overwrite_amended_witness :
    (main (fun _ => envOk) [("no-id-here")] fsStale).fs FAILED_LOG_FILE
        = some (FileData.json (logContent
            (main (fun _ => envOk) [("no-id-here")] fsStale).failed_downloads))
    ∧ (main (fun _ => envOk) [("https://x?abstract_id=7")] fsStale).fs FAILED_LOG_FILE
        = fsStale FAILED_LOG_FILE := by
  constructor
  · exact (log_overwrite_amended (fun _ => envOk) [("no-id-here")] fsStale).1 (by decide)
  · exact (log_overwrite_amended (fun _ => envOk) [("https://x?abstract_id=7")] fsStale).2
      (by decide)

end SSRN
